import Mathlib

/-!
Verification development for the excel-ai-telegram-bot repository
(`answer.py`, `table_file_answer.py`, `telegram-excel-bot.py`).

The Python sources are shallowly embedded: text is `List Char`
(Python `str` methods such as `in`, `split(sep, 1)`, `strip()`, `upper()`
become explicit list functions), in-process dictionaries become
association lists, the filesystem becomes explicit maps from paths to
byte lists, and elapsed wall-clock time becomes an oracle value observed
after each fetched batch.
-/

/-! ## Python string primitives over `List Char` -/

/-- The backtick character, written by code point. -/
def btick : Char := Char.ofNat 96

/-- Python `str.isspace` characters relevant to `str.strip()` (ASCII range). -/
def pySpace (c : Char) : Bool :=
  c = ' ' || c = '\t' || c = '\n' || c = '\x0d' || c = '\x0b' || c = '\x0c'

/-- Python `s.strip()`: drop leading and trailing whitespace. -/
def pyStrip (s : List Char) : List Char :=
  ((s.dropWhile pySpace).reverse.dropWhile pySpace).reverse

/-- Python uppercasing for the characters this code base compares
(ASCII letters and the Cyrillic range used in the sources). -/
def pyUpperChar (c : Char) : Char :=
  if 'a' ≤ c ∧ c ≤ 'z' then Char.ofNat (c.toNat - 32)
  else if 0x430 ≤ c.toNat ∧ c.toNat ≤ 0x44F then Char.ofNat (c.toNat - 0x20)
  else if c.toNat = 0x451 then Char.ofNat 0x401
  else c

/-- Python lowercasing for the characters this code base compares
(ASCII letters and the Cyrillic range used in the sources). -/
def pyLowerChar (c : Char) : Char :=
  if 'A' ≤ c ∧ c ≤ 'Z' then Char.ofNat (c.toNat + 32)
  else if 0x410 ≤ c.toNat ∧ c.toNat ≤ 0x42F then Char.ofNat (c.toNat + 0x20)
  else if c.toNat = 0x401 then Char.ofNat 0x451
  else c

/-- Python `s.upper()`. -/
def pyUpper (s : List Char) : List Char := s.map pyUpperChar

/-- Python `s.lower()`. -/
def pyLower (s : List Char) : List Char := s.map pyLowerChar

/-- First occurrence of the substring `sep` in `s`:
`some (before, after)` splits `s` as `before ++ sep ++ after` at the first
occurrence, `none` when `sep` does not occur.  This models both Python's
`sep in s` (the option is `some`) and `s.split(sep, 1)`. -/
def findSub (sep : List Char) : List Char → Option (List Char × List Char)
  | [] => if sep.isEmpty then some ([], []) else none
  | c :: rest =>
    if sep.isPrefixOf (c :: rest) then some ([], (c :: rest).drop sep.length)
    else (findSub sep rest).map fun p => (c :: p.1, p.2)

/-- Python `sep in s`. -/
def containsSub (sep s : List Char) : Bool := (findSub sep s).isSome

/-- The fence marker three-backtick string. -/
def fenceMark : List Char := [btick, btick, btick]

/-- The tagged fence opener, three backticks followed by `sql`. -/
def sqlFenceMark : List Char := [btick, btick, btick, 's', 'q', 'l']

/-- Query extraction of `table_file_answer.py` (lines 522–528, also 299–304):

    if "```sql" in r and "```" in r.split("```sql", 1)[1]:
        q = r.split("```sql", 1)[1].split("```", 1)[0].strip()
    elif "```" in r and "```" in r.split("```", 1)[1]:
        q = r.split("```", 1)[1].split("```", 1)[0].strip()
    else:
        q = r.strip()
-/
def extractSqlTable (r : List Char) : List Char :=
  match findSub sqlFenceMark r with
  | some (_, afterTag) =>
    match findSub fenceMark afterTag with
    | some (inner, _) => pyStrip inner
    | none => extractSqlTableElif r
  | none => extractSqlTableElif r
where
  /-- The `elif`/`else` tail of the extraction conditional. -/
  extractSqlTableElif (r : List Char) : List Char :=
    match findSub fenceMark r with
    | some (_, afterFence) =>
      match findSub fenceMark afterFence with
      | some (inner, _) => pyStrip inner
      | none => pyStrip r
    | none => pyStrip r

/-- Query extraction of `answer.py` (lines 232–236).  Identical fencing
logic, except that an unfenced response is kept verbatim (no `strip`). -/
def extractSqlAnswer (r : List Char) : List Char :=
  match findSub sqlFenceMark r with
  | some (_, afterTag) =>
    match findSub fenceMark afterTag with
    | some (inner, _) => pyStrip inner
    | none => extractSqlAnswerElif r
  | none => extractSqlAnswerElif r
where
  /-- The `elif` tail; with no fence at all `gpt_sql` is left unchanged. -/
  extractSqlAnswerElif (r : List Char) : List Char :=
    match findSub fenceMark r with
    | some (_, afterFence) =>
      match findSub fenceMark afterFence with
      | some (inner, _) => pyStrip inner
      | none => r
    | none => r

/-- The read verb, as compared by `sql_query.upper().startswith("SELECT")`. -/
def selectKeyword : List Char := ['S', 'E', 'L', 'E', 'C', 'T']

/-- `table_file_answer.py` line 531: `sql_query.upper().startswith("SELECT")`. -/
def isSelectQuery (q : List Char) : Bool := selectKeyword.isPrefixOf (pyUpper q)

/-- The synthesis gate of `table_file_answer.py` standard mode
(lines 519–541): the extracted query is executed (`some q`, reaching
`cursor.execute(sql_query)` at line 559) only when it starts with the read
verb; otherwise the script prints an error, closes the store connection and
exits with code 1 before any execution call (`none`). -/
def tableSynthGate (resp : List Char) : Option (List Char) :=
  let q := extractSqlTable resp
  if isSelectQuery q then some q else none

/-- The SQL text `answer.py` passes to `cursor.execute` (line 242): the
fence-extracted model response, submitted to the staging store directly,
with no read-verb validation between extraction (lines 232–236) and
execution. -/
def answerSubmittedQuery (resp : List Char) : List Char := extractSqlAnswer resp

/-! ## Data model: cells, relations, sheets -/

/-- A cell value: enough to distinguish texts (sheet tags, headers) from
numeric data. -/
inductive Val where
  | str (s : String)
  | num (n : Int)
deriving DecidableEq

/-- One staged row. -/
abbrev Row := List Val

/-- A relation as pandas materialises it: ordered column names with rows of
values in column order. -/
structure DF where
  cols : List String
  rows : List Row
deriving DecidableEq

/-- One worksheet as the spreadsheet parsing collaborator returns it:
its name, header-derived column names, and rows. -/
structure Sheet where
  sname : String
  header : List String
  srows : List Row
deriving DecidableEq

/-- The added sheet-origin column (`df_sheet['_sheet_name'] = sheet_name`). -/
def sheetNameCol : String := "_sheet_name"

/-- Reading one sheet and tagging it (`answer.py` 107–110,
`table_file_answer.py` 143–150): pandas appends the new `_sheet_name`
column after the sheet's own columns and gives every row of that sheet the
sheet's name as its value. -/
def tagSheet (s : Sheet) : DF :=
  { cols := s.header ++ [sheetNameCol]
    rows := s.srows.map fun r => r ++ [Val.str s.sname] }

/-- The tagged rows of one sheet. -/
def taggedRows (s : Sheet) : List Row := (tagSheet s).rows

/-- Normalising a workbook into the one wide relation (`answer.py` 98–120,
`table_file_answer.py` 128–166): every sheet is read in source order and
tagged; with more than one sheet the tagged frames are concatenated
(`pd.concat(all_dfs, ignore_index=True)`), otherwise the single tagged
frame is the result.  An empty workbook makes `all_dfs[0]` fail, hence
`none`.  The column list models `pd.concat` for workbooks whose sheets
share one header, the supported shape (pandas aligns by column name and
the concatenation of the rows is exact in that case). -/
def loadWorkbook : List Sheet → Option DF
  | [] => none
  | s :: rest =>
    some { cols := (tagSheet s).cols
           rows := ((s :: rest).map taggedRows).flatten }

/-! ## Fingerprinted ingestion with content-addressed caching -/

/-- Fuel-bounded worker for `chunks`: each step consumes a nonempty
prefix, so `l.length` steps of fuel always suffice. -/
def chunksAux (n : Nat) : Nat → List Nat → List (List Nat)
  | 0, _ => []
  | fuel + 1, l =>
    if l = [] ∨ n = 0 then [] else l.take n :: chunksAux n fuel (l.drop n)

/-- Splitting a byte stream into the fixed-size chunks the hashing loop
reads (`file.read(4096)` in `get_file_hash`). -/
def chunks (n : Nat) (l : List Nat) : List (List Nat) := chunksAux n l.length l

/-- `get_file_hash` (`answer.py` 31–37, `table_file_answer.py` 65–71):
fold an incremental digest update over the 4096-byte chunks of the file's
content.  The digest state type `H`, the update `upd` (`h.update(chunk)`)
and the initial state `h0` (`hashlib.md5()`) are parameters: the md5
internals are outside the embedding, and every theorem below holds for all
of them. -/
def getFileHash {H : Type} (upd : H → List Nat → H) (h0 : H) (content : List Nat) : H :=
  (chunks 4096 content).foldl upd h0

/-- Python `os.path.basename`: the part after the last slash. -/
def pyBasename (p : List Char) : List Char := (p.splitOn '/').getLastD p

/-- The derived staging-store name (`answer.py` 80, `table_file_answer.py`
110): `f"temp_db_{os.path.basename(file_path).replace('.', '_')}.sqlite"`. -/
def dbFileName (path : String) : String :=
  "temp_db_" ++ ⟨(pyBasename path.toList).map fun c => if c = '.' then '_' else c⟩
    ++ ".sqlite"

/-- One entry of the in-process `file_cache` dictionary: the normalised
relation and the sheet list. -/
structure CacheEntry where
  dataframe : DF
  sheets : List String
deriving DecidableEq

/-- The process-global mutable state ingestion touches, plus the staging
stores on disk.  `fileCache` is the `file_cache` dictionary keyed by
`(file hash, db file name)` (the code concatenates the two into one
string key; the pair is the same key).  `dbDisk` maps a staging-store
file name to the content of its `data` table; a name present in the list
models `os.path.exists(db_file)`. -/
structure IngestEnv (H : Type) where
  fileCache : List ((H × String) × CacheEntry)
  dbDisk : List (String × DF)
deriving DecidableEq

/-- Step 2 of both scripts (`answer.py` 132–143, `table_file_answer.py`
178–211): if caching is off or no store file exists for the derived name, a
fresh store is (re)created and the whole relation inserted (`to_sql` with
`replace` on the first chunk and `append` thereafter inserts exactly
`df.rows.length` rows); otherwise the existing store is reopened with no
insert.  Returns the environment after the step, the number of rows
inserted, and the content of the store's `data` table after the step. -/
def stageStore {H : Type} (cacheOn : Bool) (env : IngestEnv H) (db : String) (df : DF) :
    IngestEnv H × Nat × DF :=
  if !cacheOn || (List.lookup db env.dbDisk).isNone then
    ({ env with dbDisk := (db, df) :: env.dbDisk }, df.rows.length, df)
  else
    (env, 0, (List.lookup db env.dbDisk).getD df)

/-- Steps 1–2 of both scripts (`answer.py` 79–143, `table_file_answer.py`
109–211): compute the content fingerprint and the derived store name, use
the in-process cache entry when caching is on, the key is present and the
store file exists (`answer.py` 93), otherwise parse the workbook
(ingestion failure = `none`, the `sys.exit(1)` at `answer.py` 130) and,
when caching is on, record the new cache entry; then stage the relation.
Returns the new environment, the rows inserted, and the staged `data`
table the request will query. -/
def ingest {H : Type} [DecidableEq H] (upd : H → List Nat → H) (h0 : H)
    (parseFile : List Nat → List Sheet) (cacheOn : Bool)
    (disk : String → List Nat) (env : IngestEnv H) (path : String) :
    Option (IngestEnv H × Nat × DF) :=
  let db := dbFileName path
  let key : H × String := (getFileHash upd h0 (disk path), db)
  let cached : Option CacheEntry :=
    if cacheOn ∧ (List.lookup key env.fileCache).isSome
        ∧ (List.lookup db env.dbDisk).isSome then
      List.lookup key env.fileCache
    else none
  match cached with
  | some entry => some (stageStore cacheOn env db entry.dataframe)
  | none =>
    match loadWorkbook (parseFile (disk path)) with
    | none => none
    | some df =>
      let env' :=
        if cacheOn then
          { env with
            fileCache :=
              (key, ⟨df, (parseFile (disk path)).map Sheet.sname⟩) :: env.fileCache }
        else env
      some (stageStore cacheOn env' db df)

/-! ## Bounded execution engine: the batched drain loop -/

/-- The drain loop of `table_file_answer.py` (lines 569–583 in standard
mode, 337–351 in `--execute-sql` mode).  The input is the sequence of
nonempty `cursor.fetchmany(BATCH_SIZE)` results the cursor would yield,
each paired with the elapsed wall-clock time (`time.time() - start_time`,
abstracted to whole numbers) observed right after that batch is appended.
The loop fetches a batch, stops at an empty fetch, otherwise appends the
batch and then compares the elapsed time with the budget, breaking when it
is exceeded.  Returns the collected rows — a normal value, not an error —
together with the number of `fetchmany` calls performed. -/
def drainBatches {α : Type} (timeout : Nat) : List (List α × Nat) → List α × Nat
  | [] => ([], 1)
  | (b, t) :: rest =>
    if timeout < t then (b, 1)
    else
      let r := drainBatches timeout rest
      (b ++ r.1, r.2 + 1)

/-! ## Exit codes of `table_file_answer.py` -/

/-- How the execution step of `table_file_answer.py` ends: a drained row
list (possibly empty), an `sqlite3.OperationalError` whose text contains
`"timeout"`, another `OperationalError`, or any other exception. -/
inductive ExecOutcome where
  | rows (rs : List Row)
  | opTimeout
  | opError
  | unexpected
deriving DecidableEq

/-- The process exit code of `table_file_answer.py` in its default
(standard, table-building) mode, as a function of the execution outcome
(lines 590–745): a lock timeout exits 1 (line 608), another operational
error exits 1 (line 624), an unexpected error exits 1 (line 630), an
empty result prints a model-authored clarification and then exits 1
(lines 633–648), and a non-empty result saves the artifact and returns
from `main` normally, exit code 0 (lines 649–738). -/
def tableStandardExit : ExecOutcome → Nat
  | .rows rs => if rs.isEmpty then 1 else 0
  | .opTimeout => 1
  | .opError => 1
  | .unexpected => 1

/-- The process exit code of the same script's `--execute-sql` mode
(lines 310–462): every outcome, the empty result (lines 359–370)
included, falls through to `conn.close(); sys.exit(0)` at lines 461–462. -/
def executeSqlModeExit : ExecOutcome → Nat
  | _ => 0

/-! ## The dead date-filter helper and the prompt actually sent -/

/-- The date-like test of `generate_sql_for_date_filters`
(`table_file_answer.py` line 24): a schema line counts as date-like when
it contains `(TIMESTAMP)`, contains `Date`, its lowercasing contains
`дата`, or it contains `Дата`. -/
def dateLikeLine (line : List Char) : Bool :=
  containsSub ("(TIMESTAMP)".toList) line || containsSub ("Date".toList) line
    || containsSub ("дата".toList) (pyLower line) || containsSub ("Дата".toList) line

/-- `line.split(' - ')[1].split(' (')[0]` (line 25): the text between the
first `" - "` and the following `" - "` (or the end), cut before the first
`" ("`.  A line with no `" - "` would raise `IndexError` in Python; schema
lines are rendered as `" - name (type)"` and always contain it, and the
model returns `[]` there. -/
def colNameOfLine (line : List Char) : List Char :=
  match findSub (" - ".toList) line with
  | none => []
  | some (_, afterDash) =>
    let piece :=
      match findSub (" - ".toList) afterDash with
      | some (b, _) => b
      | none => afterDash
    match findSub (" (".toList) piece with
    | some (b, _) => b
    | none => piece

/-- The date-like column names collected from the schema block
(lines 22–26): the schema text is split into lines, the date-like lines
kept, and each contributes its extracted column name. -/
def dateColumns (schemaStr : List Char) : List (List Char) :=
  ((schemaStr.splitOn '\n').filter dateLikeLine).map colNameOfLine

/-- The guidance block `date_hint` (lines 29–36), with the collected
column names quoted and comma-joined into its first line. -/
def dateHint (cols : List (List Char)) : List Char :=
  ("\n- Обрати внимание на следующие столбцы с датами: ".toList)
  ++ List.intercalate (", ".toList) (cols.map fun c => '"' :: (c ++ ['"']))
  ++ ("\n- Для работы с датами убедись, что правильно интерпретируешь формат даты\n- Вместо функции date('now', '-X years') используй сравнение с явно заданным годом (например, \"Год постройки\" >= 2015)\n- Если нужно работать с полем \"Дата постройки\", лучше использовать условие по \"Год постройки\", если такое поле есть\n- Для фильтрации по дате выбирай более простые условия, например:\n  * 'Год постройки >= 2014' вместо сложных вычислений с текущей датой\n".toList)

/-- `generate_sql_for_date_filters(sql_prompt, schema_str)`
(`table_file_answer.py` lines 19–39): when the schema block has a
date-like column the guidance is appended to the prompt, otherwise the
prompt is returned unchanged. -/
def generateSqlForDateFilters (sqlPrompt schemaStr : List Char) : List Char :=
  let cols := dateColumns schemaStr
  if cols.isEmpty then sqlPrompt else sqlPrompt ++ dateHint cols

/-- The query-generation prompt `sql_prompt` built in standard mode
(`table_file_answer.py` lines 493–517) and passed as-is to
`chat_with_gpt` at line 520.  `generate_sql_for_date_filters` is never
applied to it anywhere in the repository. -/
def buildSqlPrompt (selectedColumns query schemaStr sampleStr : List Char)
    (sheetNames : List (List Char)) : List Char :=
  ("\nИспользуя следующие столбцы: ".toList) ++ selectedColumns
  ++ ("\nТаблица называется 'data' (SQLite).\nЗапрос пользователя: \"".toList) ++ query
  ++ ("\"\nСхема таблицы:\n".toList) ++ schemaStr
  ++ ("\nПервые 10 строк из SQL-таблицы:\n".toList) ++ sampleStr
  ++ ("\n\nСформируй, пожалуйста, корректный SQL-запрос (SQLite) для получения итогового ответа.\nВажно:\n- Возвращай только SQL-запрос, начиная с ключевого слова SELECT, без лишнего текста или комментариев.\n- Если имя столбца содержит пробелы или спецсимволы, оборачивай его в двойные кавычки.\n- Не используй команды, которые могут изменить структуру базы (DROP, ALTER и т.д.).\n- Запрос должен быть полным и готовым к выполнению.\n- Не добавляй условия, которые исключают большую часть данных, если это не требуется в запросе.\n- Будь осторожен с условиями WHERE - если не требуется явно отфильтровать данные, лучше не использовать ограничивающие условия.\n- Обработай запрос пользователя буквально, не добавляя собственных условий и ограничений.\n".toList)
  ++ (if sheetNames.length > 1 then
        ("\n- В таблице есть столбец '_sheet_name', который указывает, из какого листа Excel взята строка (".toList)
        ++ List.intercalate (", ".toList) sheetNames
        ++ (").\n  Используй этот столбец, если нужно фильтровать данные по конкретному листу.\n".toList)
      else [])

/-! ## The conversational session state machine (`telegram-excel-bot.py`) -/

/-- The bot states (lines 36–38). -/
inductive BotState where
  | idle
  | waitingQuery
  | chatMode
deriving DecidableEq

/-- One role-tagged conversation turn. -/
structure Turn where
  role : String
  content : String
deriving DecidableEq

/-- The per-user `user_data[user_id]` dictionary: the keys the handlers
set, each `Option` because Python deletes or never sets them
(`del user_data[user_id]['chat_history']`, `user_data[user_id] = {}`). -/
structure SessionData where
  fileId : Option String
  fileName : Option String
  filePath : Option String
  actionType : Option String
  userQuery : Option String
  chatHistory : Option (List Turn)
deriving DecidableEq

/-- The cleared dictionary `{}`. -/
def emptySessionData : SessionData := ⟨none, none, none, none, none, none⟩

/-- One user's session: `user_states[user_id]` and `user_data[user_id]`. -/
structure Session where
  state : BotState
  data : SessionData
deriving DecidableEq

/-- The user interactions whose handlers mutate the session state
(`button_callback` lines 134–227, `cancel` lines 700–712,
`excel_file_selected` lines 290–313). -/
inductive BotEvent where
  | selectFile (fid fname : String)
  | actionQuestion
  | actionTable
  | backToFiles
  | mainMenu
  | newQuery
  | endChat
  | cancelCmd

/-- The state-machine step, one branch per handler:
`excel_file_selected` stores the file identity (lines 299–300);
`action_question` / `action_table` move to `WAITING_QUERY` recording the
action type (lines 171–186); `back_to_files` and `main_menu` reset to
`IDLE` clearing the data (lines 187–192, 201–206); `new_query` re-enters
`WAITING_QUERY` keeping the data (lines 193–200); `end_chat` deletes the
chat history, keeps everything else and moves to `IDLE` (lines 207–224);
`/cancel` moves to `IDLE` with the data dictionary replaced by `{}`
(lines 700–712). -/
def botStep (s : Session) : BotEvent → Session
  | .selectFile fid fname =>
    { s with data := { s.data with fileId := some fid, fileName := some fname } }
  | .actionQuestion =>
    ⟨.waitingQuery, { s.data with actionType := some "question" }⟩
  | .actionTable =>
    ⟨.waitingQuery, { s.data with actionType := some "table" }⟩
  | .backToFiles => ⟨.idle, emptySessionData⟩
  | .mainMenu => ⟨.idle, emptySessionData⟩
  | .newQuery => ⟨.waitingQuery, s.data⟩
  | .endChat => ⟨.idle, { s.data with chatHistory := none }⟩
  | .cancelCmd => ⟨.idle, emptySessionData⟩

/-! ## Concrete scenario used to evaluate the ingestion machine -/

/-- A concrete digest update: concatenating the chunk onto the state.  It
stands in for `md5.update` when the machine is run on concrete inputs. -/
def updConcat (h c : List Nat) : List Nat := h ++ c

/-- A concrete spreadsheet parser: one sheet named `Sheet1` with a single
column `x`, one row per byte. -/
def demoParse (bs : List Nat) : List Sheet :=
  [{ sname := "Sheet1", header := ["x"], srows := bs.map fun b => [Val.num (Int.ofNat b)] }]

/-- A disk whose every file holds the byte `1`. -/
def diskV1 : String → List Nat := fun _ => [1]

/-- The same disk after the file content changed to the byte `2`. -/
def diskV2 : String → List Nat := fun _ => [2]

/-- The empty process state: empty `file_cache`, no store files on disk. -/
def env0 : IngestEnv (List Nat) := ⟨[], []⟩

/-- The derived store name for the path `report.xlsx`. -/
def dbR : String := "temp_db_report_xlsx.sqlite"

/-- The staged relation of content `[1]` under `demoParse`. -/
def df1c : DF := ⟨["x", "_sheet_name"], [[Val.num 1, Val.str "Sheet1"]]⟩

/-- The staged relation of content `[2]` under `demoParse`. -/
def df2c : DF := ⟨["x", "_sheet_name"], [[Val.num 2, Val.str "Sheet1"]]⟩

/-- Process state after the first ingestion of `report.xlsx` with content
`[1]` and caching on. -/
def env1c : IngestEnv (List Nat) :=
  ⟨[(([1], dbR), ⟨df1c, ["Sheet1"]⟩)], [(dbR, df1c)]⟩

/-- Process state after re-ingesting `report.xlsx` once its content changed
to `[2]`: the cache gains the new fingerprint's entry, but the store on
disk still holds the old relation. -/
def env2c : IngestEnv (List Nat) :=
  ⟨(([2], dbR), ⟨df2c, ["Sheet1"]⟩) :: env1c.fileCache, env1c.dbDisk⟩

/-- The derived store names for the paths `a.xlsx` and `b.xlsx`. -/
def dbA : String := "temp_db_a_xlsx.sqlite"

/-- See `dbA`. -/
def dbB : String := "temp_db_b_xlsx.sqlite"

/-- Process state after ingesting `a.xlsx` (content `[1]`, caching on). -/
def envAc : IngestEnv (List Nat) :=
  ⟨[(([1], dbA), ⟨df1c, ["Sheet1"]⟩)], [(dbA, df1c)]⟩

/-- Process state after then ingesting `b.xlsx` with byte-identical
content: a second store is created and filled. -/
def envBc : IngestEnv (List Nat) :=
  ⟨(([1], dbB), ⟨df1c, ["Sheet1"]⟩) :: envAc.fileCache, (dbB, df1c) :: envAc.dbDisk⟩

/-- The derived store name shared by `x/data.xlsx` and `y/data.xlsx`. -/
def dbD : String := "temp_db_data_xlsx.sqlite"

/-- Process state after ingesting `x/data.xlsx` (content `[1]`, caching
on). -/
def envDc : IngestEnv (List Nat) :=
  ⟨[(([1], dbD), ⟨df1c, ["Sheet1"]⟩)], [(dbD, df1c)]⟩

/-- The schema block of a table whose single described column is
date-like: ` - Дата постройки (TIMESTAMP)`. -/
def schemaExC8 : List Char := " - Дата постройки (TIMESTAMP)".toList

/-- The query-generation prompt built (and sent) for that schema in
standard mode. -/
def promptExC8 : List Char :=
  buildSqlPrompt ("Дата постройки".toList) ("дома новее 2015 года".toList)
    schemaExC8 ("(2016,)".toList) [("Лист1".toList)]

/-- First words of the date guidance, used to show the sent prompt does
not contain it. -/
def dateHintMarker : List Char := "Обрати внимание".toList

/-- A two-sheet demonstration workbook. -/
def wsDemo : List Sheet :=
  [{ sname := "2023", header := ["id"], srows := [[Val.num 1], [Val.num 2]] },
   { sname := "2024", header := ["id"], srows := [[Val.num 3]] }]

/-- Its staged relation. -/
def dfDemo : DF :=
  ⟨["id", "_sheet_name"],
   [[Val.num 1, Val.str "2023"], [Val.num 2, Val.str "2023"],
    [Val.num 3, Val.str "2024"]]⟩

/-- The row offset at which sheet `i` starts inside the staged relation:
the total row count of the earlier sheets. -/
def sheetOffset (ws : List Sheet) (i : Nat) : Nat :=
  ((ws.take i).map fun s => s.srows.length).sum

/-! ## Lemmas about `findSub` and `pyStrip` -/

theorem findSub_cons_of_head_ne {d c : Char} {sep' rest : List Char} (h : c ≠ d) :
    findSub (d :: sep') (c :: rest)
      = (findSub (d :: sep') rest).map fun p => (c :: p.1, p.2) := by
  have hb : (d == c) = false := beq_false_of_ne (Ne.symm h)
  simp [findSub, List.isPrefixOf, hb]

theorem findSub_append_of_ne {d : Char} {sep' l s : List Char}
    (h : ∀ c ∈ l, c ≠ d) :
    findSub (d :: sep') (l ++ s)
      = (findSub (d :: sep') s).map fun p => (l ++ p.1, p.2) := by
  induction l with
  | nil =>
    rw [List.nil_append]
    cases findSub (d :: sep') s <;> simp
  | cons c t ih =>
    have hc : c ≠ d := h c (by simp)
    have ht : ∀ x ∈ t, x ≠ d := fun x hx => h x (by simp [hx])
    rw [List.cons_append, findSub_cons_of_head_ne hc, ih ht]
    cases findSub (d :: sep') s <;> simp

theorem findSub_eq_none_of_ne {d : Char} {sep' s : List Char}
    (h : ∀ c ∈ s, c ≠ d) :
    findSub (d :: sep') s = none := by
  induction s with
  | nil => simp [findSub]
  | cons c t ih =>
    rw [findSub_cons_of_head_ne (h c (by simp))]
    rw [ih (fun x hx => h x (by simp [hx]))]
    rfl

theorem findSub_self_append {d : Char} {sep' r : List Char} :
    findSub (d :: sep') ((d :: sep') ++ r) = some ([], r) := by
  have hp : (d :: sep').isPrefixOf ((d :: sep') ++ r) = true :=
    List.isPrefixOf_iff_prefix.mpr ⟨r, rfl⟩
  have hd : ((d :: sep') ++ r).drop (d :: sep').length = r := List.drop_left _ _
  rw [List.cons_append, findSub]
  rw [← List.cons_append, if_pos hp, hd]

theorem findSub_append_sep {d : Char} {sep' l r : List Char}
    (h : ∀ c ∈ l, c ≠ d) :
    findSub (d :: sep') (l ++ ((d :: sep') ++ r)) = some (l, r) := by
  rw [findSub_append_of_ne h, findSub_self_append]
  simp

theorem dropWhile_eq_self_of_pyStrip {Q : List Char} (h : pyStrip Q = Q) :
    Q.dropWhile pySpace = Q := by
  have hsuf : Q.dropWhile pySpace <:+ Q := List.dropWhile_suffix pySpace
  have h1 : (pyStrip Q).length ≤ (Q.dropWhile pySpace).length := by
    unfold pyStrip
    calc ((Q.dropWhile pySpace).reverse.dropWhile pySpace).reverse.length
        = ((Q.dropWhile pySpace).reverse.dropWhile pySpace).length := by
          rw [List.length_reverse]
      _ ≤ (Q.dropWhile pySpace).reverse.length :=
          (List.dropWhile_suffix pySpace).sublist.length_le
      _ = (Q.dropWhile pySpace).length := by rw [List.length_reverse]
  have h2 : (Q.dropWhile pySpace).length ≤ Q.length :=
    (List.dropWhile_suffix pySpace).sublist.length_le
  have hlen : (Q.dropWhile pySpace).length = Q.length := by
    have := h ▸ h1
    omega
  exact List.Sublist.eq_of_length hsuf.sublist hlen

theorem reverse_dropWhile_eq_of_pyStrip {Q : List Char} (h : pyStrip Q = Q) :
    Q.reverse.dropWhile pySpace = Q.reverse := by
  have hd : Q.dropWhile pySpace = Q := dropWhile_eq_self_of_pyStrip h
  have h' : (Q.reverse.dropWhile pySpace).reverse = Q := by
    unfold pyStrip at h
    rw [hd] at h
    exact h
  calc Q.reverse.dropWhile pySpace
      = ((Q.reverse.dropWhile pySpace).reverse).reverse := by
        rw [List.reverse_reverse]
    _ = Q.reverse := by rw [h']

theorem pyStrip_wrap {Q : List Char} (h : pyStrip Q = Q) :
    pyStrip ('\n' :: (Q ++ ['\n'])) = Q := by
  cases Q with
  | nil => decide
  | cons q t =>
    have hds : (q :: t).dropWhile pySpace = q :: t := dropWhile_eq_self_of_pyStrip h
    have hq : pySpace q = false := by
      by_contra hq'
      have hq2 : pySpace q = true := by
        cases hb : pySpace q with
        | false => exact absurd hb hq'
        | true => rfl
      have : (q :: t).dropWhile pySpace = t.dropWhile pySpace := by
        simp [List.dropWhile, hq2]
      rw [this] at hds
      have hlt : (t.dropWhile pySpace).length ≤ t.length :=
        (List.dropWhile_suffix pySpace).sublist.length_le
      have := congrArg List.length hds
      simp at this
      omega
    have hnl : pySpace '\n' = true := by decide
    unfold pyStrip
    rw [List.dropWhile_cons_of_pos hnl]
    have hfront : ((q :: t) ++ ['\n']).dropWhile pySpace = (q :: t) ++ ['\n'] := by
      rw [List.cons_append]
      exact List.dropWhile_cons_of_neg (by simp [hq])
    rw [hfront]
    have hrev : ((q :: t) ++ ['\n']).reverse = '\n' :: (q :: t).reverse := by
      simp
    rw [hrev, List.dropWhile_cons_of_pos hnl, reverse_dropWhile_eq_of_pyStrip h,
      List.reverse_reverse]

theorem findSub_sqlFence_step {s : List Char} :
    findSub sqlFenceMark (btick :: btick :: btick :: '\n' :: s)
      = (findSub sqlFenceMark s).map
          fun p => (btick :: btick :: btick :: '\n' :: p.1, p.2) := by
  have h1 : (('s' : Char) == '\n') = false := by decide
  have h2 : (btick == '\n') = false := by decide
  cases hfs : findSub sqlFenceMark s with
  | none =>
    simp only [sqlFenceMark] at hfs
    simp [findSub, sqlFenceMark, List.isPrefixOf, h1, h2, hfs]
  | some p =>
    simp only [sqlFenceMark] at hfs
    simp [findSub, sqlFenceMark, List.isPrefixOf, h1, h2, hfs]

theorem findSub_sqlFence_of_untagged {Q : List Char} (hbt : ∀ c ∈ Q, c ≠ btick) :
    findSub sqlFenceMark (fenceMark ++ '\n' :: Q ++ '\n' :: fenceMark) = none := by
  have hshape : fenceMark ++ '\n' :: Q ++ '\n' :: fenceMark
      = btick :: btick :: btick :: '\n' :: ((Q ++ ['\n']) ++ fenceMark) := by
    simp [fenceMark]
  rw [hshape, findSub_sqlFence_step]
  have hne : ∀ c ∈ Q ++ ['\n'], c ≠ btick := by
    intro c hc
    rcases List.mem_append.mp hc with hc | hc
    · exact hbt c hc
    · simp at hc
      rw [hc]
      decide
  have hsep : sqlFenceMark = btick :: [btick, btick, 's', 'q', 'l'] := rfl
  rw [hsep, findSub_append_of_ne hne]
  have : findSub (btick :: [btick, btick, 's', 'q', 'l']) fenceMark = none := by decide
  rw [this]
  rfl

theorem findSub_fence_inner {Q : List Char} (hbt : ∀ c ∈ Q, c ≠ btick) :
    findSub fenceMark (('\n' :: Q) ++ ('\n' :: fenceMark))
      = some ('\n' :: (Q ++ ['\n']), []) := by
  have hne : ∀ c ∈ '\n' :: (Q ++ ['\n']), c ≠ btick := by
    intro c hc
    rcases List.mem_cons.mp hc with hc | hc
    · rw [hc]; decide
    · rcases List.mem_append.mp hc with hc | hc
      · exact hbt c hc
      · simp at hc; rw [hc]; decide
  have h := @findSub_append_sep btick [btick, btick] ('\n' :: (Q ++ ['\n'])) [] hne
  simpa [fenceMark, List.append_assoc] using h

theorem findSub_tagFence_opener {Q : List Char} :
    findSub sqlFenceMark (sqlFenceMark ++ '\n' :: Q ++ '\n' :: fenceMark)
      = some ([], ('\n' :: Q) ++ ('\n' :: fenceMark)) := by
  have h := @findSub_self_append btick [btick, btick, 's', 'q', 'l']
      (('\n' :: Q) ++ ('\n' :: fenceMark))
  simpa [sqlFenceMark, List.append_assoc] using h

theorem findSub_fence_opener {Q : List Char} :
    findSub fenceMark (fenceMark ++ '\n' :: Q ++ '\n' :: fenceMark)
      = some ([], ('\n' :: Q) ++ ('\n' :: fenceMark)) := by
  have h := @findSub_self_append btick [btick, btick]
      (('\n' :: Q) ++ ('\n' :: fenceMark))
  simpa [fenceMark, List.append_assoc] using h

theorem findSub_none_of_no_btick {Q : List Char} (hbt : ∀ c ∈ Q, c ≠ btick) :
    findSub sqlFenceMark Q = none ∧ findSub fenceMark Q = none := by
  constructor
  · exact @findSub_eq_none_of_ne btick [btick, btick, 's', 'q', 'l'] Q hbt
  · exact @findSub_eq_none_of_ne btick [btick, btick] Q hbt

theorem extractSqlTable_tagged {Q : List Char}
    (hbt : ∀ c ∈ Q, c ≠ btick) (hst : pyStrip Q = Q) :
    extractSqlTable (sqlFenceMark ++ '\n' :: Q ++ '\n' :: fenceMark) = Q := by
  simp only [extractSqlTable, findSub_tagFence_opener, findSub_fence_inner hbt]
  exact pyStrip_wrap hst

theorem extractSqlTable_untagged {Q : List Char}
    (hbt : ∀ c ∈ Q, c ≠ btick) (hst : pyStrip Q = Q) :
    extractSqlTable (fenceMark ++ '\n' :: Q ++ '\n' :: fenceMark) = Q := by
  simp only [extractSqlTable, extractSqlTable.extractSqlTableElif,
    findSub_sqlFence_of_untagged hbt, findSub_fence_opener, findSub_fence_inner hbt]
  exact pyStrip_wrap hst

theorem extractSqlTable_bare {Q : List Char}
    (hbt : ∀ c ∈ Q, c ≠ btick) (hst : pyStrip Q = Q) :
    extractSqlTable Q = Q := by
  obtain ⟨h1, h2⟩ := findSub_none_of_no_btick hbt
  simp only [extractSqlTable, extractSqlTable.extractSqlTableElif, h1, h2]
  exact hst

theorem extractSqlAnswer_tagged {Q : List Char}
    (hbt : ∀ c ∈ Q, c ≠ btick) (hst : pyStrip Q = Q) :
    extractSqlAnswer (sqlFenceMark ++ '\n' :: Q ++ '\n' :: fenceMark) = Q := by
  simp only [extractSqlAnswer, findSub_tagFence_opener, findSub_fence_inner hbt]
  exact pyStrip_wrap hst

theorem extractSqlAnswer_untagged {Q : List Char}
    (hbt : ∀ c ∈ Q, c ≠ btick) (hst : pyStrip Q = Q) :
    extractSqlAnswer (fenceMark ++ '\n' :: Q ++ '\n' :: fenceMark) = Q := by
  simp only [extractSqlAnswer, extractSqlAnswer.extractSqlAnswerElif,
    findSub_sqlFence_of_untagged hbt, findSub_fence_opener, findSub_fence_inner hbt]
  exact pyStrip_wrap hst

theorem extractSqlAnswer_bare {Q : List Char} (hbt : ∀ c ∈ Q, c ≠ btick) :
    extractSqlAnswer Q = Q := by
  obtain ⟨h1, h2⟩ := findSub_none_of_no_btick hbt
  simp only [extractSqlAnswer, extractSqlAnswer.extractSqlAnswerElif, h1, h2]

/-! ## Lemmas about the staged relation -/

theorem loadWorkbook_rows {ws : List Sheet} {df : DF} (h : loadWorkbook ws = some df) :
    df.rows = (ws.map taggedRows).flatten := by
  cases ws with
  | nil => simp [loadWorkbook] at h
  | cons s rest =>
    simp only [loadWorkbook, Option.some.injEq] at h
    rw [← h]

theorem flatten_drop_sum {β : Type} (L : List (List β)) (i : Nat) :
    L.flatten.drop (((L.take i).map List.length).sum) = (L.drop i).flatten := by
  induction i generalizing L with
  | zero => simp
  | succ k ih =>
    cases L with
    | nil => simp
    | cons x xs =>
      simp only [List.take_succ_cons, List.map_cons, List.sum_cons,
        List.flatten_cons, List.drop_succ_cons]
      rw [← List.drop_drop, List.drop_left]
      exact ih xs

theorem sheetOffset_eq (ws : List Sheet) (i : Nat) :
    sheetOffset ws i = (((ws.map taggedRows).take i).map List.length).sum := by
  rw [sheetOffset, ← List.map_take, List.map_map]
  congr 1
  apply List.map_congr_left
  intro s _
  simp [taggedRows, tagSheet]

theorem taggedRows_length (s : Sheet) : (taggedRows s).length = s.srows.length := by
  simp [taggedRows, tagSheet]

/-! ## Lemmas about the ingestion machine -/

theorem stageStore_lookup {H : Type} (env : IngestEnv H) (db : String) (df : DF)
    (out : IngestEnv H × Nat × DF) (h : stageStore true env db df = out) :
    List.lookup db out.1.dbDisk = some out.2.2 ∧ out.1.fileCache = env.fileCache := by
  unfold stageStore at h
  split at h
  · rw [← h]
    simp [List.lookup]
  · rename_i hcond
    have hsome : (List.lookup db env.dbDisk).isSome = true := by
      simp only [Bool.not_true, Bool.false_or] at hcond
      simp [Option.isNone_eq_false_iff, Option.isSome_iff_ne_none] at hcond ⊢
      exact hcond
    obtain ⟨v, hv⟩ := Option.isSome_iff_exists.mp hsome
    rw [← h]
    simp [hv]

theorem ingest_cache_post {H : Type} [DecidableEq H]
    {upd : H → List Nat → H} {h0 : H} {parseFile : List Nat → List Sheet}
    {disk : String → List Nat} {env env1 : IngestEnv H} {p : String}
    {n1 : Nat} {staged1 : DF}
    (h : ingest upd h0 parseFile true disk env p = some (env1, n1, staged1)) :
    (List.lookup (getFileHash upd h0 (disk p), dbFileName p) env1.fileCache).isSome
        = true ∧
    List.lookup (dbFileName p) env1.dbDisk = some staged1 := by
  simp only [ingest] at h
  split at h
  · rename_i entry heq
    have hs : stageStore true env (dbFileName p) entry.dataframe = (env1, n1, staged1) :=
      Option.some.inj h
    obtain ⟨hl, hfc⟩ := stageStore_lookup _ _ _ _ hs
    split at heq
    · rename_i hcond
      constructor
      · rw [hfc, heq]
        rfl
      · exact hl
    · exact absurd heq (by simp)
  · rename_i heq
    split at h
    · exact absurd h (by simp)
    · rename_i df hdf
      simp only [if_true] at h
      have hs : stageStore true
          { env with
            fileCache :=
              ((getFileHash upd h0 (disk p), dbFileName p),
                ⟨df, (parseFile (disk p)).map Sheet.sname⟩) :: env.fileCache }
          (dbFileName p) df = (env1, n1, staged1) := Option.some.inj h
      obtain ⟨hl, hfc⟩ := stageStore_lookup _ _ _ _ hs
      constructor
      · rw [hfc]
        simp [List.lookup]
      · exact hl

/-- C3 (amended): byte-identical content always hashes to the same
fingerprint, and a second ingestion with caching on reuses the existing
staging store with zero rows inserted whenever the derived store name also
matches — in the code that means the two paths share one base name. -/
theorem ingest_same_content_same_store_reuses {H : Type} [DecidableEq H]
    (upd : H → List Nat → H) (h0 : H) (parseFile : List Nat → List Sheet)
    (disk : String → List Nat) (env env1 : IngestEnv H) (p1 p2 : String)
    (n1 : Nat) (staged1 : DF)
    (hc : disk p1 = disk p2) (hdb : dbFileName p1 = dbFileName p2)
    (h1 : ingest upd h0 parseFile true disk env p1 = some (env1, n1, staged1)) :
    getFileHash upd h0 (disk p2) = getFileHash upd h0 (disk p1) ∧
    ingest upd h0 parseFile true disk env1 p2 = some (env1, 0, staged1) := by
  obtain ⟨hkey, hdbk⟩ := ingest_cache_post h1
  have hfp : getFileHash upd h0 (disk p2) = getFileHash upd h0 (disk p1) := by rw [hc]
  refine ⟨hfp, ?_⟩
  obtain ⟨entry, hentry⟩ := Option.isSome_iff_exists.mp hkey
  simp only [ingest, hfp, ← hdb, hentry, hdbk, Option.isSome_some, and_self,
    if_true, true_and]
  simp only [stageStore, hdbk, Option.isNone_some, Bool.not_true, Bool.false_or,
    if_false, Option.getD_some]
  simp

/-- C7: for every supported multi-sheet workbook that ingestion stages,
the staged row count is the sum of the per-sheet row counts, and the block
of staged rows starting at sheet `i`'s offset is exactly sheet `i`'s rows
in their source order, each extended with the `_sheet_name` tag holding
that sheet's name — so sheets appear in source order, row order is kept
within each sheet, and every staged row carries its source sheet's tag. -/
theorem staged_multisheet_shape (ws : List Sheet) (df : DF)
    (h : loadWorkbook ws = some df) :
    df.rows.length = (ws.map fun s => s.srows.length).sum ∧
    ∀ i, (hi : i < ws.length) →
      (df.rows.drop (sheetOffset ws i)).take (ws.get ⟨i, hi⟩).srows.length
        = (ws.get ⟨i, hi⟩).srows.map fun r => r ++ [Val.str (ws.get ⟨i, hi⟩).sname] := by
  have hrows := loadWorkbook_rows h
  constructor
  · rw [hrows, List.length_flatten, List.map_map]
    congr 1
    apply List.map_congr_left
    intro s _
    simp [taggedRows, tagSheet]
  · intro i hi
    rw [hrows, sheetOffset_eq, flatten_drop_sum, ← List.map_drop]
    have hd : ws.drop i = ws.get ⟨i, hi⟩ :: ws.drop (i + 1) := by
      rw [List.drop_eq_getElem_cons (l := ws) (n := i) hi]
      simp
    rw [hd]
    simp only [List.map_cons, List.flatten_cons]
    rw [← taggedRows_length (ws.get ⟨i, hi⟩), List.take_left]
    simp [taggedRows, tagSheet]

/-- C7 witness: the two-sheet demonstration workbook staged as `dfDemo`. -/
theorem staged_multisheet_shape_witness :
    dfDemo.rows.length = (wsDemo.map fun s => s.srows.length).sum ∧
    ∀ i, (hi : i < wsDemo.length) →
      (dfDemo.rows.drop (sheetOffset wsDemo i)).take (wsDemo.get ⟨i, hi⟩).srows.length
        = (wsDemo.get ⟨i, hi⟩).srows.map fun r => r ++ [Val.str (wsDemo.get ⟨i, hi⟩).sname] :=
  staged_multisheet_shape wsDemo dfDemo (by decide)

/-- C4: with budget `T`, the drain loop checks the elapsed time after
every batch; if batch `k` is the first whose completion exceeds `T`, the
loop performs exactly `k + 1` fetch calls — none after that batch — and
returns, as an ordinary value rather than an error, precisely the rows of
batches `0..k`: all rows collected so far, overshooting the deadline by
exactly the one batch that crossed it. -/
theorem drainBatches_stops_at_deadline {α : Type} (T : Nat)
    (bs : List (List α × Nat)) (k : Nat) (hk : k < bs.length)
    (hbefore : ∀ p ∈ bs.take k, p.2 ≤ T)
    (hex : T < (bs.get ⟨k, hk⟩).2) :
    drainBatches T bs = (((bs.take (k + 1)).map Prod.fst).flatten, k + 1) := by
  induction k generalizing bs with
  | zero =>
    cases bs with
    | nil => simp at hk
    | cons b rest =>
      obtain ⟨r, t⟩ := b
      simp only [List.get] at hex
      simp [drainBatches, hex]
  | succ k ih =>
    cases bs with
    | nil => simp at hk
    | cons b rest =>
      obtain ⟨r, t⟩ := b
      have hb : t ≤ T := by
        have := hbefore (r, t) (by simp [List.take_succ_cons])
        simpa using this
      have hk' : k < rest.length := by simpa using hk
      have hbefore' : ∀ p ∈ rest.take k, p.2 ≤ T := by
        intro p hp
        exact hbefore p (by simp [List.take_succ_cons, hp])
      have hex' : T < (rest.get ⟨k, hk'⟩).2 := by
        simpa using hex
      have hrec := ih rest hk' hbefore' hex'
      simp only [drainBatches, Nat.not_lt.mpr hb, if_neg (by omega : ¬ T < t), hrec]
      simp [List.take_succ_cons]

/-- C4 witness: budget 3, four batches completing at times 1, 2, 5 and 9.
The third batch (index 2) is the first past the deadline: three fetches
happen, and the result is the concatenation of the first three batches. -/
theorem drainBatches_stops_at_deadline_witness :
    drainBatches 3 [([1, 2], 1), ([3], 2), ([4], 5), ([9], 9)]
      = ((([([1, 2], 1), ([3], 2), ([4], 5), ([9], 9)].take (2 + 1)).map
          Prod.fst).flatten, 2 + 1) :=
  drainBatches_stops_at_deadline 3 [([1, 2], 1), ([3], 2), ([4], 5), ([9], 9)] 2
    (by decide) (by decide) (by decide)

/-- C1 (evaluation at the failing input): `report.xlsx` with content `[1]`
is ingested with caching on; the content then changes to `[2]` (a
different fingerprint) and the path is re-ingested.  The in-process cache
misses and the new content is parsed (`loadWorkbook` yields `df2c`), but
because the rebuild test at step 2 checks only `os.path.exists(db_file)`
and never the fingerprint, the existing store is reopened with zero rows
inserted: the staged relation the request queries is still `df1c`, the
normalisation of the old content, not `df2c`. -/
theorem ingest_keeps_stale_store_on_content_change :
    ingest updConcat [] demoParse true diskV1 env0 "report.xlsx"
        = some (env1c, 1, df1c) ∧
    ingest updConcat [] demoParse true diskV2 env1c "report.xlsx"
        = some (env2c, 0, df1c) ∧
    loadWorkbook (demoParse (diskV2 "report.xlsx")) = some df2c ∧
    df1c ≠ df2c := by decide

/-- C2 (amended): in the table-building pipeline's standard mode, whenever
the synthesis gate lets a query through to execution, that query starts
with the read verb; a response whose extracted query does not is rejected
(`none`) before any execution call. -/
theorem synth_gate_only_select (resp q : List Char)
    (h : tableSynthGate resp = some q) : isSelectQuery q = true := by
  simp only [tableSynthGate] at h
  split at h
  · rename_i hsel
    cases h
    exact hsel
  · exact absurd h (by simp)

/-- C2 witness: `SELECT * FROM data` passes the gate and starts with the
read verb. -/
theorem synth_gate_only_select_witness :
    isSelectQuery (extractSqlTable ("SELECT * FROM data".toList)) = true :=
  synth_gate_only_select ("SELECT * FROM data".toList)
    (extractSqlTable ("SELECT * FROM data".toList)) (by decide)

/-- C2 counterexample: the question-answering pipeline (`answer.py`) has no
such gate — the model response `DROP TABLE data` is submitted to the
staging store's `cursor.execute` verbatim although it does not begin with
the read verb, so the claim that no query is ever sent to the store unless
it begins with SELECT is false of the pipeline as a whole. -/
theorem answer_executes_drop_table :
    answerSubmittedQuery ("DROP TABLE data".toList) = "DROP TABLE data".toList ∧
    isSelectQuery ("DROP TABLE data".toList) = false := by decide

/-- C3 counterexample: `a.xlsx` and `b.xlsx` hold byte-identical content
and the fingerprints agree, yet re-ingesting under the different base name
derives a different store name, so a second store is created and all rows
are inserted again (1 row inserted, not 0, and the disk gains a store). -/
theorem reingest_other_basename_reinserts :
    getFileHash updConcat [] (diskV1 "a.xlsx")
        = getFileHash updConcat [] (diskV1 "b.xlsx") ∧
    ingest updConcat [] demoParse true diskV1 env0 "a.xlsx"
        = some (envAc, 1, df1c) ∧
    ingest updConcat [] demoParse true diskV1 envAc "b.xlsx"
        = some (envBc, 1, df1c) ∧
    envBc.dbDisk ≠ envAc.dbDisk := by decide

/-- C3 witness: `x/data.xlsx` and `y/data.xlsx` share content and base
name; after ingesting the first, ingesting the second reuses the store
with zero rows inserted and the same staged relation. -/
theorem ingest_same_content_same_store_reuses_witness :
    getFileHash updConcat [] (diskV1 "y/data.xlsx")
        = getFileHash updConcat [] (diskV1 "x/data.xlsx") ∧
    ingest updConcat [] demoParse true diskV1 envDc "y/data.xlsx"
        = some (envDc, 0, df1c) :=
  ingest_same_content_same_store_reuses updConcat [] demoParse diskV1 env0 envDc
    "x/data.xlsx" "y/data.xlsx" 1 df1c rfl (by decide) (by decide)

/-- C5 (evaluation at the failing input): in the default table-building
mode an empty query result makes the script print a model-authored
clarification and then call `sys.exit(1)` — the exit code is 1, not the 0
the specification requires for the non-error empty-result outcome, while
the same outcome in `--execute-sql` mode does exit 0, and a non-empty
result in standard mode exits 0. -/
theorem table_empty_result_exit_codes :
    tableStandardExit (ExecOutcome.rows []) = 1 ∧
    executeSqlModeExit (ExecOutcome.rows []) = 0 ∧
    tableStandardExit (ExecOutcome.rows [[Val.num 1]]) = 0 := by decide

/-- C6: for a query text `Q` holding no backtick and carrying no leading
or trailing whitespace, extraction yields the same inner content `Q` in
all three shapes of model response — fenced with the `sql` language tag,
fenced without a tag, and bare (where the trimmed response is used
verbatim) — in both scripts' extraction steps. -/
theorem extraction_fence_invariance {Q : List Char}
    (hbt : ∀ c ∈ Q, c ≠ btick) (hst : pyStrip Q = Q) :
    extractSqlTable (sqlFenceMark ++ '\n' :: Q ++ '\n' :: fenceMark) = Q ∧
    extractSqlTable (fenceMark ++ '\n' :: Q ++ '\n' :: fenceMark) = Q ∧
    extractSqlTable Q = Q ∧
    extractSqlAnswer (sqlFenceMark ++ '\n' :: Q ++ '\n' :: fenceMark) = Q ∧
    extractSqlAnswer (fenceMark ++ '\n' :: Q ++ '\n' :: fenceMark) = Q ∧
    extractSqlAnswer Q = Q :=
  ⟨extractSqlTable_tagged hbt hst, extractSqlTable_untagged hbt hst,
    extractSqlTable_bare hbt hst, extractSqlAnswer_tagged hbt hst,
    extractSqlAnswer_untagged hbt hst, extractSqlAnswer_bare hbt⟩

/-- C6 witness: the three wrappings of `SELECT 1` all extract to
`SELECT 1`. -/
theorem extraction_fence_invariance_witness :
    extractSqlTable (sqlFenceMark ++ '\n' :: "SELECT 1".toList ++ '\n' :: fenceMark)
        = "SELECT 1".toList ∧
    extractSqlTable (fenceMark ++ '\n' :: "SELECT 1".toList ++ '\n' :: fenceMark)
        = "SELECT 1".toList ∧
    extractSqlTable ("SELECT 1".toList) = "SELECT 1".toList ∧
    extractSqlAnswer (sqlFenceMark ++ '\n' :: "SELECT 1".toList ++ '\n' :: fenceMark)
        = "SELECT 1".toList ∧
    extractSqlAnswer (fenceMark ++ '\n' :: "SELECT 1".toList ++ '\n' :: fenceMark)
        = "SELECT 1".toList ∧
    extractSqlAnswer ("SELECT 1".toList) = "SELECT 1".toList :=
  extraction_fence_invariance (by decide) (by decide)

/-- C8 (amended): the helper `generate_sql_for_date_filters` does append
the year/threshold guidance exactly when the schema block's text suggests
date-like columns and returns the prompt unchanged otherwise — but the
query-generation path never calls it, so the prompt actually sent to the
model (`buildSqlPrompt`) is unchanged even for date-like schemas. -/
theorem date_filter_helper_spec (prompt schemaStr : List Char) :
    (dateColumns schemaStr = [] →
      generateSqlForDateFilters prompt schemaStr = prompt) ∧
    (dateColumns schemaStr ≠ [] →
      generateSqlForDateFilters prompt schemaStr
        = prompt ++ dateHint (dateColumns schemaStr)) := by
  unfold generateSqlForDateFilters
  constructor
  · intro h
    simp [h]
  · intro h
    rw [if_neg (by simpa using h)]

set_option maxRecDepth 40000 in
/-- C8 counterexample: for the schema block ` - Дата постройки
(TIMESTAMP)` the date-like test fires and the helper would change the
prompt, yet the prompt built and sent in standard mode contains no trace
of the guidance: the sent prompt is not augmented. -/
theorem sent_prompt_not_augmented :
    dateColumns schemaExC8 ≠ [] ∧
    containsSub dateHintMarker promptExC8 = false ∧
    generateSqlForDateFilters promptExC8 schemaExC8 ≠ promptExC8 := by decide

/-- C9: an explicit end-chat always moves the session to `IDLE` with the
chat history cleared while the file identity (id, name, path) is retained
in the session data, and an explicit cancel from any state moves to `IDLE`
with the session data cleared entirely. -/
theorem endChat_clears_history_cancel_clears_all (s : Session) :
    (botStep s .endChat).state = BotState.idle ∧
    (botStep s .endChat).data.chatHistory = none ∧
    (botStep s .endChat).data.fileId = s.data.fileId ∧
    (botStep s .endChat).data.fileName = s.data.fileName ∧
    (botStep s .endChat).data.filePath = s.data.filePath ∧
    (botStep s .cancelCmd).state = BotState.idle ∧
    (botStep s .cancelCmd).data = emptySessionData :=
  ⟨rfl, rfl, rfl, rfl, rfl, rfl, rfl⟩

/-- C10: even a single-sheet workbook is staged with the added
`_sheet_name` column: the staged relation's columns are the sheet's own
columns followed by the tag column — one more column than the source — and
every staged row is the source row extended with the sheet's name. -/
theorem single_sheet_has_sheet_tag (s : Sheet) :
    loadWorkbook [s] = some (tagSheet s) ∧
    (tagSheet s).cols = s.header ++ [sheetNameCol] ∧
    (tagSheet s).cols.length = s.header.length + 1 ∧
    (tagSheet s).rows = s.srows.map fun r => r ++ [Val.str s.sname] := by
  refine ⟨?_, rfl, by simp [tagSheet], rfl⟩
  simp [loadWorkbook, taggedRows]
